import Mathlib

/-!
Verification of the issue-workflow engine of a citizen issue-reporting
application.  The workflow logic lives in database trigger functions and
stored procedures (an SQL migration): `auto_assign_issue_to_area` (BEFORE
INSERT trigger on issues), `update_issue_workflow` (AFTER INSERT trigger on
issue_assignments), and the RPCs `assign_issue_to_department`,
`submit_work_completion`, `approve_work_completion`; plus the client-side
`createIssue` wrapper.  Those are embedded here as pure functions over an
explicit database state (lists of rows).  Row ids are modelled as natural
numbers generated from a counter; the ambient `auth.uid()` is passed as an
explicit caller argument and `now()` / `CURRENT_DATE` as an explicit clock
argument.  UPDATE statements become maps over the row lists, SELECT ... LIMIT 1
becomes List.find?, and the RPCs' jsonb success/error results become the
`Rpc` type.
-/

namespace CivicWorkflow

/-- Row of the areas table (fields consulted by the workflow logic). -/
structure Area where
  id : Nat
  name : String
  area_super_admin_id : Option Nat
  is_active : Bool
deriving DecidableEq, Repr

/-- Row of the profiles table (fields consulted by the workflow logic). -/
structure Profile where
  id : Nat
  user_type : String
  assigned_department_id : Option Nat
  is_verified : Bool
deriving DecidableEq, Repr

/-- Row of the issues table (fields consulted by the workflow logic). -/
structure Issue where
  id : Nat
  user_id : Nat
  area : Option String
  workflow_stage : String
  status : String
  assigned_area_id : Option Nat
  assigned_department_id : Option Nat
  current_assignee_id : Option Nat
  resolved_at : Option Nat
  final_resolution_notes : Option String
  final_resolution_images : Option (List String)
  updated_at : Nat
deriving DecidableEq, Repr

/-- Row of the issue_assignments table. -/
structure Assignment where
  id : Nat
  issue_id : Nat
  assigned_by : Nat
  assigned_to : Nat
  assignment_type : String
  assignment_notes : Option String
  status : String
  completed_at : Option Nat
  created_at : Nat
deriving DecidableEq, Repr

/-- Row of the work_progress table. -/
structure WorkProgress where
  id : Nat
  issue_id : Nat
  assignment_id : Option Nat
  submitted_by : Nat
  title : String
  description : String
  before_images : Option (List String)
  after_images : List String
  completion_date : Nat
  status : String
  reviewed_by : Option Nat
  review_notes : Option String
  reviewed_at : Option Nat
deriving DecidableEq, Repr

/-- Database state: the tables the workflow logic reads and writes, plus a
counter standing in for id generation. -/
structure DB where
  areas : List Area
  profiles : List Profile
  issues : List Issue
  assignments : List Assignment
  work_progress : List WorkProgress
  next_id : Nat
deriving DecidableEq, Repr

/-- Result of an RPC: the functions return jsonb objects that are either a
success object or an object with an error message. -/
inductive Rpc where
  | success : Rpc
  | error : String → Rpc
deriving DecidableEq, Repr

/-- UPDATE table SET row := g row WHERE idf row = k, as a map over the rows. -/
def updBy {α : Type} (idf : α → Nat) (k : Nat) (g : α → α) (l : List α) : List α :=
  l.map fun x => if idf x = k then g x else x

/-- SELECT * FROM issues WHERE id = k LIMIT 1. -/
def getIssue (db : DB) (k : Nat) : Option Issue :=
  db.issues.find? fun i => i.id == k

/-- SELECT * FROM work_progress WHERE id = k LIMIT 1. -/
def getWp (db : DB) (k : Nat) : Option WorkProgress :=
  db.work_progress.find? fun w => w.id == k

/-- Code point of a character after ASCII lowercasing (the area names in the
data are ASCII, so this is SQL's LOWER on them). -/
def charLowerNat (c : Char) : Nat :=
  let n := c.toNat
  if 65 ≤ n ∧ n ≤ 90 then n + 32 else n

/-- Case-insensitive string comparison, LOWER(a) = LOWER(b). -/
def lowerEq (a b : String) : Bool :=
  a.data.map charLowerNat == b.data.map charLowerNat

/-- Lookup in auto_assign_issue_to_area: the first active area whose name
matches the issue's area text case-insensitively (the INNER JOINs to
districts and states only follow NOT NULL foreign keys and filter nothing). -/
def areaLookup (db : DB) (s : String) : Option Area :=
  db.areas.find? fun a => a.is_active && lowerEq a.name s

/-- Trigger function update_issue_workflow, fired AFTER INSERT on
issue_assignments: sets the issue's workflow stage and current assignee from
the new assignment's type; for a department_admin assignment it also copies
the assignee profile's assigned_department_id onto the issue. -/
def update_issue_workflow (profiles : List Profile) (a : Assignment)
    (issues : List Issue) : List Issue :=
  if a.assignment_type = "area_admin" then
    updBy Issue.id a.issue_id
      (fun i => { i with workflow_stage := "area_review",
                         current_assignee_id := some a.assigned_to }) issues
  else if a.assignment_type = "department_admin" then
    updBy Issue.id a.issue_id
      (fun i => { i with workflow_stage := "department_assigned",
                         current_assignee_id := some a.assigned_to,
                         assigned_department_id :=
                           (profiles.find? (fun p => p.id == a.assigned_to)).bind
                             (fun p => p.assigned_department_id) }) issues
  else if a.assignment_type = "contractor" then
    updBy Issue.id a.issue_id
      (fun i => { i with workflow_stage := "contractor_assigned",
                         current_assignee_id := some a.assigned_to }) issues
  else issues

/-- INSERT INTO issue_assignments, together with the AFTER INSERT trigger
trigger_update_issue_workflow that fires update_issue_workflow. -/
def insert_assignment (db : DB) (a : Assignment) : DB :=
  { db with assignments := db.assignments ++ [a],
            issues := update_issue_workflow db.profiles a db.issues }

/-- Trigger function auto_assign_issue_to_area, fired BEFORE INSERT on issues:
if the new issue's free-text area matches an active area that has an area
super admin, route the issue to that admin (stage area_review) and record an
area_admin assignment; otherwise leave the assignee empty, in which case the
stage is forced back to reported.  Returns the modified NEW row and the
database after the assignment insert. -/
def auto_assign_issue_to_area (now : Nat) (db : DB) (nw : Issue) : Issue × DB :=
  let step : Issue × DB :=
    match nw.area with
    | some s =>
      match areaLookup db s with
      | some ar =>
        match ar.area_super_admin_id with
        | some adminId =>
          let nw1 := { nw with assigned_area_id := some ar.id,
                               current_assignee_id := some adminId,
                               workflow_stage := "area_review" }
          let a : Assignment :=
            { id := db.next_id, issue_id := nw.id, assigned_by := nw.user_id,
              assigned_to := adminId, assignment_type := "area_admin",
              assignment_notes := some "Auto-assigned based on location",
              status := "active", completed_at := none, created_at := now }
          (nw1, insert_assignment { db with next_id := db.next_id + 1 } a)
        | none => (nw, db)
      | none => (nw, db)
    | none => (nw, db)
  let nw2 := if step.1.current_assignee_id = none
             then { step.1 with workflow_stage := "reported" } else step.1
  (nw2, step.2)

/-- INSERT INTO issues: the BEFORE INSERT trigger trigger_auto_assign_issue
runs auto_assign_issue_to_area on the new row, then the (possibly modified)
row is appended to the issues table. -/
def create_issue_row (now : Nat) (db : DB) (nw : Issue) : DB :=
  let r := auto_assign_issue_to_area now db nw
  { r.2 with issues := r.2.issues ++ [r.1] }

/-- RPC assign_issue_to_department: find a verified department admin of the
department (LIMIT 1); if none, return an error object; otherwise insert a
department_admin assignment (firing the workflow trigger) and update the
issue's department, assignee and stage. -/
def assign_issue_to_department (now : Nat) (caller : Nat) (db : DB)
    (issue_id : Nat) (department_id : Nat) (notes : Option String) : Rpc × DB :=
  match db.profiles.find? (fun p =>
      p.assigned_department_id == some department_id
      && p.user_type == "department_admin" && p.is_verified) with
  | none => (Rpc.error "No department admin found for this department", db)
  | some adm =>
    let a : Assignment :=
      { id := db.next_id, issue_id := issue_id, assigned_by := caller,
        assigned_to := adm.id, assignment_type := "department_admin",
        assignment_notes := notes, status := "active",
        completed_at := none, created_at := now }
    let db1 := insert_assignment { db with next_id := db.next_id + 1 } a
    let issues2 := updBy Issue.id issue_id
      (fun i => { i with assigned_department_id := some department_id,
                         current_assignee_id := some adm.id,
                         workflow_stage := "department_assigned",
                         updated_at := now }) db1.issues
    (Rpc.success, { db1 with issues := issues2 })

/-- RPC submit_work_completion: look up the caller's most recent active
assignment on the issue (ORDER BY created_at DESC LIMIT 1; rows are appended
chronologically so the last matching row is the newest), insert a
work_progress row with default status submitted, and move the issue to stage
department_review with status in_progress.  The function performs no
validation of its inputs and always returns success. -/
def submit_work_completion (now : Nat) (caller : Nat) (db : DB)
    (issue_id : Nat) (title : String) (description : String)
    (after_images : List String) (before_images : Option (List String)) :
    Rpc × DB :=
  let asgId : Option Nat :=
    ((db.assignments.filter (fun a =>
        a.issue_id == issue_id && a.assigned_to == caller
        && a.status == "active")).getLast?).map (fun a => a.id)
  let w : WorkProgress :=
    { id := db.next_id, issue_id := issue_id, assignment_id := asgId,
      submitted_by := caller, title := title, description := description,
      before_images := before_images, after_images := after_images,
      completion_date := now, status := "submitted", reviewed_by := none,
      review_notes := none, reviewed_at := none }
  let issues1 := updBy Issue.id issue_id
    (fun i => { i with workflow_stage := "department_review",
                       status := "in_progress", updated_at := now }) db.issues
  (Rpc.success, { db with next_id := db.next_id + 1,
                          work_progress := db.work_progress ++ [w],
                          issues := issues1 })

/-- RPC approve_work_completion: fetch the work_progress row joined to its
issue (error object if absent); then mark the record approved with reviewer
and timestamp, resolve the issue copying the record's description and after
images into the issue's resolution fields, and complete every active
assignment of the issue. -/
def approve_work_completion (now : Nat) (caller : Nat) (db : DB)
    (work_progress_id : Nat) (review_notes : Option String) : Rpc × DB :=
  match getWp db work_progress_id with
  | none => (Rpc.error "Work progress record not found", db)
  | some w =>
    if db.issues.any (fun i => i.id == w.issue_id) then
      let wp1 := updBy WorkProgress.id work_progress_id
        (fun x => { x with status := "approved", reviewed_by := some caller,
                           review_notes := review_notes,
                           reviewed_at := some now }) db.work_progress
      let issues1 := updBy Issue.id w.issue_id
        (fun i => { i with status := "resolved",
                           workflow_stage := "resolved",
                           resolved_at := some now,
                           final_resolution_notes := some w.description,
                           final_resolution_images := some w.after_images,
                           updated_at := now }) db.issues
      let asg1 := db.assignments.map (fun a =>
        if a.issue_id = w.issue_id ∧ a.status = "active"
        then { a with status := "completed", completed_at := some now }
        else a)
      (Rpc.success, { db with work_progress := wp1, issues := issues1,
                              assignments := asg1 })
    else (Rpc.error "Work progress record not found", db)

/-- Directed edges of the workflow state machine as enumerated in section 4.1
of the specification.  This definition follows the specification's words, not
the code; it is the comparison point for the transition-validation claim. -/
def specAllowedEdge (src tgt : String) : Bool :=
  (src == "reported" && tgt == "area_review") ||
  (src == "reported" && tgt == "reported") ||
  (src == "area_review" && tgt == "department_assigned") ||
  (src == "department_assigned" && tgt == "contractor_assigned") ||
  (src == "contractor_assigned" && tgt == "in_progress") ||
  (src == "department_assigned" && tgt == "in_progress") ||
  (src == "in_progress" && tgt == "department_review") ||
  (src == "department_review" && tgt == "area_approval") ||
  (src == "area_approval" && tgt == "resolved") ||
  (src == "department_review" && tgt == "resolved")

/-- Input object of the client-side createIssue wrapper; a field holding
none or the empty string is falsy in the JavaScript checks. -/
structure IssueData where
  title : Option String
  description : Option String
  category : Option String
  priority : Option String
deriving DecidableEq, Repr

/-- Row the client-side createIssue wrapper inserts on success (the fields
the claim is about). -/
structure InsertedIssue where
  user_id : Nat
  title : String
  description : String
  category : String
  status : String
  priority : String
deriving DecidableEq, Repr

/-- Result of the client-side createIssue wrapper. -/
inductive CreateResult where
  | authError : String → CreateResult
  | validationError : String → CreateResult
  | created : InsertedIssue → CreateResult
deriving DecidableEq, Repr

/-- Truth value of a JavaScript string-or-absent field used in a boolean
context: absent (undefined/null) and the empty string are falsy. -/
def jsFalsy : Option String → Bool
  | none => true
  | some s => s == ""

/-- Client-side createIssue: requires an authenticated user; rejects missing
title, description or category, a title length outside 5..200, or a
description length outside 10..2000; otherwise builds the insert payload with
status pending and priority defaulting to medium when the supplied priority
is falsy. -/
def createIssue (user : Option Nat) (d : IssueData) : CreateResult :=
  match user with
  | none => CreateResult.authError "User not authenticated"
  | some uid =>
    if jsFalsy d.title || jsFalsy d.description || jsFalsy d.category then
      CreateResult.validationError "Title, description, and category are required"
    else
      let t := d.title.getD ""
      let ds := d.description.getD ""
      if t.length < 5 || t.length > 200 then
        CreateResult.validationError "Title must be between 5 and 200 characters"
      else if ds.length < 10 || ds.length > 2000 then
        CreateResult.validationError "Description must be between 10 and 2000 characters"
      else
        CreateResult.created
          { user_id := uid, title := t, description := ds,
            category := d.category.getD "", status := "pending",
            priority := match d.priority with
                        | none => "medium"
                        | some p => if p == "" then "medium" else p }

/-! Helper lemmas about row updates and lookups. -/

/-- Updating rows at key k and then looking up key k finds the updated row,
provided the update preserves the key. -/
theorem find_updBy {α : Type} (idf : α → Nat) (k : Nat) (g : α → α) (l : List α)
    (hg : ∀ x, idf (g x) = idf x) (w : α)
    (hf : l.find? (fun x => idf x == k) = some w) :
    (updBy idf k g l).find? (fun x => idf x == k) = some (g w) := by
  induction l with
  | nil => simp at hf
  | cons a t ih =>
    by_cases h : idf a = k
    · rw [List.find?_cons_of_pos _ (by simpa using h)] at hf
      injection hf with hw
      subst hw
      simp only [updBy, List.map_cons, if_pos h]
      exact List.find?_cons_of_pos _ (by simpa using hg a ▸ h)
    · rw [List.find?_cons_of_neg _ (by simpa using h)] at hf
      simp only [updBy, List.map_cons, if_neg h]
      rw [List.find?_cons_of_neg _ (by simpa using h)]
      exact ih hf

/-- Updating rows at a key held by no row is the identity. -/
theorem updBy_eq_of_ne {α : Type} (idf : α → Nat) (k : Nat) (g : α → α)
    (l : List α) (h : ∀ x ∈ l, idf x ≠ k) : updBy idf k g l = l := by
  induction l with
  | nil => rfl
  | cons a t ih =>
    simp only [updBy, List.map_cons, if_neg (h a (List.mem_cons_self a t))]
    have : updBy idf k g t = t := ih (fun x hx => h x (List.mem_cons_of_mem a hx))
    simpa [updBy] using this

/-- Every row with key k in the updated list satisfies whatever the update
imposes on rows with key k. -/
theorem mem_updBy_key {α : Type} (idf : α → Nat) (k : Nat) (g : α → α)
    (l : List α) (P : α → Prop) (h1 : ∀ x, idf x = k → P (g x)) :
    ∀ y ∈ updBy idf k g l, idf y = k → P y := by
  intro y hy hk
  simp only [updBy, List.mem_map] at hy
  obtain ⟨x, _, hyx⟩ := hy
  by_cases h : idf x = k
  · rw [if_pos h] at hyx
    subst hyx
    exact h1 x h
  · rw [if_neg h] at hyx
    subst hyx
    exact absurd hk h

/-! Concrete fixtures used by counterexamples and witnesses. -/

namespace Fx

/-- A verified department admin of department 3. -/
def deptAdmin : Profile :=
  { id := 7, user_type := "department_admin", assigned_department_id := some 3,
    is_verified := true }

/-- An issue that is already fully resolved. -/
def issResolved : Issue :=
  { id := 1, user_id := 2, area := none, workflow_stage := "resolved",
    status := "resolved", assigned_area_id := none,
    assigned_department_id := none, current_assignee_id := none,
    resolved_at := some 1, final_resolution_notes := none,
    final_resolution_images := none, updated_at := 0 }

/-- An active area_admin assignment on issue 1. -/
def asgActive : Assignment :=
  { id := 100, issue_id := 1, assigned_by := 2, assigned_to := 5,
    assignment_type := "area_admin", assignment_notes := none,
    status := "active", completed_at := none, created_at := 0 }

/-- Database with one resolved issue holding one active assignment, and a
verified department admin. -/
def db0 : DB :=
  { areas := [], profiles := [deptAdmin], issues := [issResolved],
    assignments := [asgActive], work_progress := [], next_id := 200 }

/-- A work-progress record that has already been approved by reviewer 9. -/
def wpApproved : WorkProgress :=
  { id := 50, issue_id := 1, assignment_id := none, submitted_by := 7,
    title := "t", description := "done", before_images := none,
    after_images := ["u"], completion_date := 3, status := "approved",
    reviewed_by := some 9, review_notes := none, reviewed_at := some 4 }

/-- Database db0 extended with the already-approved record. -/
def db1 : DB := { db0 with work_progress := [wpApproved] }

/-- An active area named Karol Bagh whose super admin is profile 5. -/
def areaKB : Area :=
  { id := 11, name := "Karol Bagh", area_super_admin_id := some 5,
    is_active := true }

/-- A new issue row whose free-text area matches areaKB case-insensitively. -/
def newIssue : Issue :=
  { id := 3, user_id := 2, area := some "karol bagh",
    workflow_stage := "reported", status := "pending",
    assigned_area_id := none, assigned_department_id := none,
    current_assignee_id := none, resolved_at := none,
    final_resolution_notes := none, final_resolution_images := none,
    updated_at := 0 }

/-- A new issue row whose free-text area matches no seeded area. -/
def newIssueNoArea : Issue := { newIssue with id := 4, area := some "Nowhere" }

/-- Database db0 extended with the Karol Bagh area. -/
def db2 : DB := { db0 with areas := [areaKB] }

/-- An empty database. -/
def dbEmpty : DB :=
  { areas := [], profiles := [], issues := [], assignments := [],
    work_progress := [], next_id := 0 }

end Fx

/-! Claim theorems. -/

/-- C1 counterexample: on an issue whose workflow_stage is resolved,
assign_issue_to_department succeeds and moves the stage to
department_assigned, although resolved to department_assigned is not an edge
of the section 4.1 state machine; the operation neither fails with
InvalidTransition nor leaves the stage unchanged. -/
theorem resolved_issue_reassigned_to_department :
    (assign_issue_to_department 10 9 Fx.db0 1 3 none).1 = Rpc.success ∧
    (getIssue (assign_issue_to_department 10 9 Fx.db0 1 3 none).2 1).map
      (fun i => i.workflow_stage) = some "department_assigned" ∧
    Fx.issResolved.workflow_stage = "resolved" ∧
    specAllowedEdge "resolved" "department_assigned" = false := by
  decide

/-- C1 (amended): the workflow operations never validate the issue's current
stage: whenever assign_issue_to_department succeeds it sets the issue's stage
to department_assigned, submit_work_completion always succeeds and sets the
stage to department_review, and a successful approve_work_completion sets the
stage of the record's issue to resolved — in every case whatever the prior
stage was, and no operation ever fails with an InvalidTransition error. -/
theorem workflow_ops_ignore_current_stage (now caller : Nat) (db : DB)
    (iid did : Nat) (nts : Option String) (t d : String) (imgs : List String)
    (bimgs : Option (List String)) (wid : Nat) (rn : Option String) :
    ((assign_issue_to_department now caller db iid did nts).1 = Rpc.success →
      ∀ i ∈ (assign_issue_to_department now caller db iid did nts).2.issues,
        i.id = iid → i.workflow_stage = "department_assigned") ∧
    ((submit_work_completion now caller db iid t d imgs bimgs).1 = Rpc.success ∧
      ∀ i ∈ (submit_work_completion now caller db iid t d imgs bimgs).2.issues,
        i.id = iid → i.workflow_stage = "department_review") ∧
    (∀ w, getWp db wid = some w →
      (approve_work_completion now caller db wid rn).1 = Rpc.success →
      ∀ i ∈ (approve_work_completion now caller db wid rn).2.issues,
        i.id = w.issue_id → i.workflow_stage = "resolved") := by
  refine ⟨?_, ⟨rfl, ?_⟩, ?_⟩
  · intro hs i hi hk
    unfold assign_issue_to_department at hs hi
    cases hfind : db.profiles.find? (fun p =>
        p.assigned_department_id == some did
        && p.user_type == "department_admin" && p.is_verified) with
    | none => rw [hfind] at hs; exact absurd hs (by simp)
    | some adm =>
      rw [hfind] at hi
      simp only at hi
      refine mem_updBy_key Issue.id iid _ _
        (fun x => x.workflow_stage = "department_assigned") ?_ i hi hk
      exact fun x _ => rfl
  · intro i hi hk
    unfold submit_work_completion at hi
    simp only at hi
    refine mem_updBy_key Issue.id iid _ _
      (fun x => x.workflow_stage = "department_review") ?_ i hi hk
    exact fun x _ => rfl
  · intro w hw hs i hi hk
    unfold approve_work_completion at hs hi
    rw [hw] at hs hi
    simp only at hs hi
    by_cases hany : db.issues.any (fun i => i.id == w.issue_id)
    · rw [if_pos hany] at hi
      simp only at hi
      refine mem_updBy_key Issue.id w.issue_id _ _
        (fun x => x.workflow_stage = "resolved") ?_ i hi hk
      exact fun x _ => rfl
    · rw [if_neg hany] at hs
      exact absurd hs (by simp)

/-- C1 witness: the amended theorem applied at a concrete state: the
department assignment on the resolved issue of db0 succeeds with target stage
department_assigned. -/
theorem workflow_ops_ignore_current_stage_witness :
    ∀ i ∈ (assign_issue_to_department 10 9 Fx.db0 1 3 none).2.issues,
      i.id = 1 → i.workflow_stage = "department_assigned" :=
  (workflow_ops_ignore_current_stage 10 9 Fx.db0 1 3 none "" "" [] none 0
    none).1 (by decide)

/-- C2 counterexample: issue 1 of db0 already has one active assignment;
assign_issue_to_department succeeds and afterwards two assignments of issue 1
have status active simultaneously — the existing active assignment was not
first marked reassigned or completed. -/
theorem department_assignment_leaves_second_active :
    (assign_issue_to_department 10 9 Fx.db0 1 3 none).1 = Rpc.success ∧
    ((assign_issue_to_department 10 9 Fx.db0 1 3 none).2.assignments.filter
      (fun a => a.issue_id == 1 && a.status == "active")).length = 2 := by
  decide

/-- C2 (amended): assign_issue_to_department never touches existing
assignment rows: on success the new assignment table is exactly the old one
with one new active department_admin assignment appended, so an existing
active assignment stays active alongside the new one. -/
theorem assign_to_department_appends_active_assignment (now caller : Nat)
    (db : DB) (iid did : Nat) (nts : Option String)
    (hs : (assign_issue_to_department now caller db iid did nts).1 =
      Rpc.success) :
    ∃ adm : Profile,
      (assign_issue_to_department now caller db iid did nts).2.assignments =
        db.assignments ++
          [{ id := db.next_id, issue_id := iid, assigned_by := caller,
             assigned_to := adm.id, assignment_type := "department_admin",
             assignment_notes := nts, status := "active",
             completed_at := none, created_at := now }] := by
  unfold assign_issue_to_department at hs ⊢
  cases hfind : db.profiles.find? (fun p =>
      p.assigned_department_id == some did
      && p.user_type == "department_admin" && p.is_verified) with
  | none => rw [hfind] at hs; exact absurd hs (by simp)
  | some adm => exact ⟨adm, by simp [insert_assignment]⟩

/-- C2 witness: the amended theorem applied at db0. -/
theorem assign_to_department_appends_active_assignment_witness :
    ∃ adm : Profile,
      (assign_issue_to_department 10 9 Fx.db0 1 3 none).2.assignments =
        Fx.db0.assignments ++
          [{ id := Fx.db0.next_id, issue_id := 1, assigned_by := 9,
             assigned_to := adm.id, assignment_type := "department_admin",
             assignment_notes := none, status := "active",
             completed_at := none, created_at := 10 }] :=
  assign_to_department_appends_active_assignment 10 9 Fx.db0 1 3 none
    (by decide)

/-- C8: a failed approve_work_completion (record absent) and a failed
assign_issue_to_department (no verified department admin) leave the whole
database state — issue rows, assignment ledger, work-progress table —
exactly as it was; no row is created and no field is updated. -/
theorem failed_operations_preserve_state (now caller : Nat) (db : DB)
    (wid : Nat) (rn : Option String) (iid did : Nat) (nts : Option String) :
    ((approve_work_completion now caller db wid rn).1 ≠ Rpc.success →
      (approve_work_completion now caller db wid rn).2 = db) ∧
    ((assign_issue_to_department now caller db iid did nts).1 ≠ Rpc.success →
      (assign_issue_to_department now caller db iid did nts).2 = db) := by
  constructor
  · intro _
    unfold approve_work_completion
    cases hw : getWp db wid with
    | none => rfl
    | some w =>
      by_cases hany : db.issues.any (fun i => i.id == w.issue_id)
      · exfalso
        apply ‹(approve_work_completion now caller db wid rn).1 ≠ Rpc.success›
        unfold approve_work_completion
        rw [hw]
        simp [hany]
      · simp [hany]
  · intro hs
    unfold assign_issue_to_department at hs ⊢
    cases hfind : db.profiles.find? (fun p =>
        p.assigned_department_id == some did
        && p.user_type == "department_admin" && p.is_verified) with
    | none => rfl
    | some adm => rw [hfind] at hs; simp at hs

/-- C8 witness: on the empty database both operations fail and return the
state unchanged. -/
theorem failed_operations_preserve_state_witness :
    (approve_work_completion 1 2 Fx.dbEmpty 50 none).2 = Fx.dbEmpty ∧
    (assign_issue_to_department 1 2 Fx.dbEmpty 1 3 none).2 = Fx.dbEmpty :=
  ⟨(failed_operations_preserve_state 1 2 Fx.dbEmpty 50 none 1 3 none).1
      (by decide),
   (failed_operations_preserve_state 1 2 Fx.dbEmpty 50 none 1 3 none).2
      (by decide)⟩

/-- C3: creating an issue whose free-text area matches (case-insensitively)
the name of an active area whose super admin is adminId stores the issue with
workflow_stage area_review, current_assignee_id adminId and assigned_area_id
the matched area, and appends exactly one area_admin assignment to adminId
(and nothing else: no work-progress row). -/
theorem auto_assign_matching_area_routes_issue (now : Nat) (db : DB)
    (nw : Issue) (s : String) (ar : Area) (adminId : Nat)
    (ha : nw.area = some s) (hfind : areaLookup db s = some ar)
    (hadm : ar.area_super_admin_id = some adminId)
    (hfresh : ∀ i ∈ db.issues, i.id ≠ nw.id) :
    (create_issue_row now db nw).issues = db.issues ++
      [{ nw with assigned_area_id := some ar.id,
                 current_assignee_id := some adminId,
                 workflow_stage := "area_review" }] ∧
    (create_issue_row now db nw).assignments = db.assignments ++
      [{ id := db.next_id, issue_id := nw.id, assigned_by := nw.user_id,
         assigned_to := adminId, assignment_type := "area_admin",
         assignment_notes := some "Auto-assigned based on location",
         status := "active", completed_at := none, created_at := now }] ∧
    (create_issue_row now db nw).work_progress = db.work_progress := by
  have hupd : ∀ g : Issue → Issue, updBy Issue.id nw.id g db.issues = db.issues :=
    fun g => updBy_eq_of_ne Issue.id nw.id g db.issues hfresh
  unfold create_issue_row auto_assign_issue_to_area
  simp only [ha, hfind, hadm]
  simp only [insert_assignment, update_issue_workflow]
  refine ⟨?_, by simp, by simp⟩
  simp [hupd]

/-- C3 witness: the theorem applied to the seeded Karol Bagh area matched
case-insensitively by the new issue of the fixture database. -/
theorem auto_assign_matching_area_routes_issue_witness :
    (create_issue_row 9 Fx.db2 Fx.newIssue).issues = Fx.db2.issues ++
      [{ Fx.newIssue with assigned_area_id := some Fx.areaKB.id,
                          current_assignee_id := some 5,
                          workflow_stage := "area_review" }] :=
  (auto_assign_matching_area_routes_issue 9 Fx.db2 Fx.newIssue "karol bagh"
    Fx.areaKB 5 (by decide) (by decide) (by decide) (by decide)).1

/-- C4: creating an issue whose area field is absent, matches no active area,
or matches an area without a super admin, leaves the issue in stage reported
with no assignee, and creates no assignment row. -/
theorem auto_assign_without_admin_leaves_reported (now : Nat) (db : DB)
    (nw : Issue) (hna : nw.current_assignee_id = none)
    (h : nw.area = none ∨
      (∃ s, nw.area = some s ∧ areaLookup db s = none) ∨
      (∃ s ar, nw.area = some s ∧ areaLookup db s = some ar ∧
        ar.area_super_admin_id = none)) :
    (create_issue_row now db nw).issues = db.issues ++
      [{ nw with workflow_stage := "reported" }] ∧
    ({ nw with workflow_stage := "reported" } : Issue).current_assignee_id
      = none ∧
    (create_issue_row now db nw).assignments = db.assignments := by
  rcases h with h | ⟨s, hs, hfind⟩ | ⟨s, ar, hs, hfind, hadm⟩
  · unfold create_issue_row auto_assign_issue_to_area
    simp only [h]
    refine ⟨by simp [hna], by simpa using hna, ?_⟩
    simp [hna]
  · unfold create_issue_row auto_assign_issue_to_area
    simp only [hs, hfind]
    refine ⟨by simp [hna], by simpa using hna, ?_⟩
    simp [hna]
  · unfold create_issue_row auto_assign_issue_to_area
    simp only [hs, hfind, hadm]
    refine ⟨by simp [hna], by simpa using hna, ?_⟩
    simp [hna]

/-- C4 witness: the theorem applied to the fixture issue whose area text
matches no seeded area. -/
theorem auto_assign_without_admin_leaves_reported_witness :
    (create_issue_row 9 Fx.db2 Fx.newIssueNoArea).issues = Fx.db2.issues ++
      [{ Fx.newIssueNoArea with workflow_stage := "reported" }] ∧
    (create_issue_row 9 Fx.db2 Fx.newIssueNoArea).assignments
      = Fx.db2.assignments :=
  ⟨(auto_assign_without_admin_leaves_reported 9 Fx.db2 Fx.newIssueNoArea
      (by decide) (Or.inr (Or.inl ⟨"Nowhere", by decide, by decide⟩))).1,
   (auto_assign_without_admin_leaves_reported 9 Fx.db2 Fx.newIssueNoArea
      (by decide) (Or.inr (Or.inl ⟨"Nowhere", by decide, by decide⟩))).2.2⟩

/-- C5 counterexample: submit_work_completion called with an empty
afterImages list and a blank description succeeds (no ValidationError),
creates a work-progress record, and moves the issue of db0 from stage
resolved to department_review — refuting that such a call fails and changes
nothing. -/
theorem submit_blank_inputs_succeeds :
    (submit_work_completion 5 7 Fx.db0 1 "t" "" [] none).1 = Rpc.success ∧
    (submit_work_completion 5 7 Fx.db0 1 "t" "" [] none).2.work_progress.length
      = Fx.db0.work_progress.length + 1 ∧
    (getIssue (submit_work_completion 5 7 Fx.db0 1 "t" "" [] none).2 1).map
      (fun i => (i.workflow_stage, i.status))
      = some ("department_review", "in_progress") := by
  decide

/-- C5 (amended): submit_work_completion performs no validation at all: for
every input — including an empty afterImages list and a blank description —
it succeeds, appends exactly one work-progress record carrying those inputs
with status submitted, and sets the issue's workflow_stage to
department_review and status to in_progress. -/
theorem submit_performs_no_validation (now caller : Nat) (db : DB)
    (iid : Nat) (t d : String) (imgs : List String)
    (bimgs : Option (List String)) :
    (submit_work_completion now caller db iid t d imgs bimgs).1
      = Rpc.success ∧
    (∃ w : WorkProgress,
      (submit_work_completion now caller db iid t d imgs bimgs).2.work_progress
        = db.work_progress ++ [w] ∧
      w.status = "submitted" ∧ w.after_images = imgs ∧ w.description = d) ∧
    (∀ i ∈ (submit_work_completion now caller db iid t d imgs bimgs).2.issues,
      i.id = iid →
        i.workflow_stage = "department_review" ∧ i.status = "in_progress") := by
  refine ⟨rfl, ⟨_, rfl, rfl, rfl, rfl⟩, ?_⟩
  intro i hi hk
  unfold submit_work_completion at hi
  simp only at hi
  refine mem_updBy_key Issue.id iid _ _
    (fun x => x.workflow_stage = "department_review" ∧ x.status = "in_progress")
    ?_ i hi hk
  exact fun x _ => ⟨rfl, rfl⟩

/-- C5 witness: the amended theorem applied at the concrete blank-input
call on db0. -/
theorem submit_performs_no_validation_witness :
    (submit_work_completion 5 7 Fx.db0 1 "t" "" [] none).1 = Rpc.success ∧
    ∃ w : WorkProgress,
      (submit_work_completion 5 7 Fx.db0 1 "t" "" [] none).2.work_progress
        = Fx.db0.work_progress ++ [w] ∧
      w.status = "submitted" ∧ w.after_images = [] ∧ w.description = "" :=
  ⟨(submit_performs_no_validation 5 7 Fx.db0 1 "t" "" [] none).1,
   (submit_performs_no_validation 5 7 Fx.db0 1 "t" "" [] none).2.1⟩

/-- C6: a successful approval of an existing work-progress record marks the
record approved with reviewer and review timestamp set, resolves the parent
issue (status and stage resolved, resolved_at set, resolution notes and
images copied from the record), and completes every previously active
assignment of that issue, setting completed_at; afterwards no assignment of
the issue is active. -/
theorem approve_resolves_issue_and_completes_assignments (now caller : Nat)
    (db : DB) (wid : Nat) (rn : Option String) (w : WorkProgress)
    (iss : Issue) (hw : getWp db wid = some w)
    (hi : getIssue db w.issue_id = some iss) :
    (approve_work_completion now caller db wid rn).1 = Rpc.success ∧
    getWp (approve_work_completion now caller db wid rn).2 wid =
      some { w with status := "approved", reviewed_by := some caller,
                    review_notes := rn, reviewed_at := some now } ∧
    getIssue (approve_work_completion now caller db wid rn).2 w.issue_id =
      some { iss with status := "resolved", workflow_stage := "resolved",
                      resolved_at := some now,
                      final_resolution_notes := some w.description,
                      final_resolution_images := some w.after_images,
                      updated_at := now } ∧
    (∀ a ∈ db.assignments, a.issue_id = w.issue_id → a.status = "active" →
      ({ a with status := "completed", completed_at := some now } : Assignment)
        ∈ (approve_work_completion now caller db wid rn).2.assignments) ∧
    (∀ a ∈ (approve_work_completion now caller db wid rn).2.assignments,
      a.issue_id = w.issue_id → a.status ≠ "active") := by
  have hw' : db.work_progress.find? (fun x => x.id == wid) = some w := hw
  have hi' : db.issues.find? (fun x => x.id == w.issue_id) = some iss := hi
  have hmem := List.mem_of_find?_eq_some hi'
  have hp := List.find?_some hi'
  have hany : db.issues.any (fun i => i.id == w.issue_id) = true :=
    List.any_eq_true.mpr ⟨iss, hmem, hp⟩
  unfold approve_work_completion
  rw [hw]
  simp only [hany, if_true, reduceIte]
  refine ⟨trivial, ?_, ?_, ?_, ?_⟩
  · simp only [getWp]
    exact find_updBy WorkProgress.id wid
      (fun x => { x with status := "approved", reviewed_by := some caller,
                         review_notes := rn, reviewed_at := some now })
      db.work_progress (fun x => rfl) w hw'
  · simp only [getIssue]
    exact find_updBy Issue.id w.issue_id
      (fun i => { i with status := "resolved", workflow_stage := "resolved",
                         resolved_at := some now,
                         final_resolution_notes := some w.description,
                         final_resolution_images := some w.after_images,
                         updated_at := now })
      db.issues (fun x => rfl) iss hi'
  · intro a ha hak has
    refine List.mem_map.mpr ⟨a, ha, ?_⟩
    rw [if_pos ⟨hak, has⟩]
  · intro a ha hak
    simp only [List.mem_map] at ha
    obtain ⟨b, _, hba⟩ := ha
    by_cases hcond : b.issue_id = w.issue_id ∧ b.status = "active"
    · rw [if_pos hcond] at hba
      subst hba
      simp
    · rw [if_neg hcond] at hba
      subst hba
      intro hst
      exact hcond ⟨hak, hst⟩

/-- C6 witness: approving a fresh submitted record in a concrete database
resolves its issue and completes the active assignment. -/
theorem approve_resolves_issue_and_completes_assignments_witness :
    (approve_work_completion 20 9 Fx.db1 50 none).1 = Rpc.success ∧
    getIssue (approve_work_completion 20 9 Fx.db1 50 none).2 1 =
      some { Fx.issResolved with
               status := "resolved", workflow_stage := "resolved",
               resolved_at := some 20,
               final_resolution_notes := some "done",
               final_resolution_images := some ["u"],
               updated_at := 20 } :=
  ⟨(approve_resolves_issue_and_completes_assignments 20 9 Fx.db1 50 none
      Fx.wpApproved Fx.issResolved (by decide) (by decide)).1,
   (approve_resolves_issue_and_completes_assignments 20 9 Fx.db1 50 none
      Fx.wpApproved Fx.issResolved (by decide) (by decide)).2.2.1⟩

/-- C7 counterexample: the record of db1 is already approved with reviewer 9,
yet a second approval call by caller 10 succeeds instead of failing with
InvalidTransition or ConflictError, and it re-applies the side effects,
overwriting the record's reviewer attribution from 9 to 10. -/
theorem second_approve_succeeds_and_overwrites_reviewer :
    Fx.wpApproved.status = "approved" ∧
    Fx.wpApproved.reviewed_by = some 9 ∧
    (approve_work_completion 20 10 Fx.db1 50 none).1 = Rpc.success ∧
    (getWp (approve_work_completion 20 10 Fx.db1 50 none).2 50).map
      (fun x => x.reviewed_by) = some (some 10) := by
  decide

/-- C7 (amended): calling the approval operation on an already-approved
record succeeds again and re-applies the resolution side effects: the
record's reviewer attribution and review timestamp are overwritten with the
second caller and time; no idempotence guard exists. -/
theorem approve_on_approved_record_reapplies_effects (now caller : Nat)
    (db : DB) (wid : Nat) (rn : Option String) (w : WorkProgress)
    (iss : Issue) (hw : getWp db wid = some w)
    (hst : w.status = "approved")
    (hi : getIssue db w.issue_id = some iss) :
    (approve_work_completion now caller db wid rn).1 = Rpc.success ∧
    getWp (approve_work_completion now caller db wid rn).2 wid =
      some { w with status := "approved", reviewed_by := some caller,
                    review_notes := rn, reviewed_at := some now } := by
  have hw' : db.work_progress.find? (fun x => x.id == wid) = some w := hw
  have hi' : db.issues.find? (fun x => x.id == w.issue_id) = some iss := hi
  have hmem := List.mem_of_find?_eq_some hi'
  have hp := List.find?_some hi'
  have hany : db.issues.any (fun i => i.id == w.issue_id) = true :=
    List.any_eq_true.mpr ⟨iss, hmem, hp⟩
  unfold approve_work_completion
  rw [hw]
  simp only [hany, if_true, reduceIte]
  refine ⟨trivial, ?_⟩
  simp only [getWp]
  exact find_updBy WorkProgress.id wid
    (fun x => { x with status := "approved", reviewed_by := some caller,
                       review_notes := rn, reviewed_at := some now })
    db.work_progress (fun x => rfl) w hw'

/-- C7 witness: the amended theorem applied at the already-approved record
of db1 with a different second reviewer. -/
theorem approve_on_approved_record_reapplies_effects_witness :
    (approve_work_completion 20 10 Fx.db1 50 none).1 = Rpc.success ∧
    getWp (approve_work_completion 20 10 Fx.db1 50 none).2 50 =
      some { Fx.wpApproved with status := "approved",
                                reviewed_by := some 10,
                                review_notes := none,
                                reviewed_at := some 20 } :=
  approve_on_approved_record_reapplies_effects 20 10 Fx.db1 50 none
    Fx.wpApproved Fx.issResolved (by decide) (by decide) (by decide)

/-- C9: a call to submit_work_completion with a non-empty afterImages list
and a non-blank description succeeds, appends one work-progress record with
review status submitted carrying the given images and description, and the
parent issue's workflow_stage becomes department_review with status
in_progress. -/
theorem submit_success_creates_record_and_updates_stage (now caller : Nat)
    (db : DB) (iid : Nat) (t d : String) (imgs : List String)
    (bimgs : Option (List String)) (iss : Issue)
    (himgs : imgs ≠ []) (hd : d ≠ "") (hi : getIssue db iid = some iss) :
    (submit_work_completion now caller db iid t d imgs bimgs).1
      = Rpc.success ∧
    (∃ w : WorkProgress,
      (submit_work_completion now caller db iid t d imgs bimgs).2.work_progress
        = db.work_progress ++ [w] ∧
      w.status = "submitted" ∧ w.after_images = imgs ∧ w.description = d) ∧
    getIssue (submit_work_completion now caller db iid t d imgs bimgs).2 iid =
      some { iss with workflow_stage := "department_review",
                      status := "in_progress", updated_at := now } := by
  have hi' : db.issues.find? (fun x => x.id == iid) = some iss := hi
  refine ⟨rfl, ⟨_, rfl, rfl, rfl, rfl⟩, ?_⟩
  unfold submit_work_completion
  simp only [getIssue]
  exact find_updBy Issue.id iid
    (fun i => { i with workflow_stage := "department_review",
                       status := "in_progress", updated_at := now })
    db.issues (fun x => rfl) iss hi'

/-- C9 witness: a submission with one after image and a non-blank
description on db0. -/
theorem submit_success_creates_record_and_updates_stage_witness :
    (submit_work_completion 5 7 Fx.db0 1 "t" "fixed" ["url1"] none).1
      = Rpc.success ∧
    getIssue (submit_work_completion 5 7 Fx.db0 1 "t" "fixed" ["url1"] none).2
        1 =
      some { Fx.issResolved with workflow_stage := "department_review",
                                 status := "in_progress", updated_at := 5 } :=
  ⟨(submit_success_creates_record_and_updates_stage 5 7 Fx.db0 1 "t" "fixed"
      ["url1"] none Fx.issResolved (by decide) (by decide) (by decide)).1,
   (submit_success_creates_record_and_updates_stage 5 7 Fx.db0 1 "t" "fixed"
      ["url1"] none Fx.issResolved (by decide) (by decide) (by decide)).2.2⟩

/-- C10: the client-side createIssue for an authenticated user returns a
validation error (inserting nothing — a row is produced only in the created
result) whenever title, description or category is missing (falsy), or the
title length lies outside 5..200, or the description length lies outside
10..2000; and any successfully inserted row has status pending and priority
equal to the supplied priority, defaulting to medium when none is
supplied. -/
theorem createIssue_validates_and_defaults (uid : Nat) (d : IssueData) :
    ((jsFalsy d.title = true ∨ jsFalsy d.description = true ∨
      jsFalsy d.category = true ∨
      (∃ t, d.title = some t ∧ (t.length < 5 ∨ 200 < t.length)) ∨
      (∃ s, d.description = some s ∧ (s.length < 10 ∨ 2000 < s.length))) →
      ∃ m, createIssue (some uid) d = CreateResult.validationError m) ∧
    (∀ row : InsertedIssue,
      createIssue (some uid) d = CreateResult.created row →
      row.status = "pending" ∧
      (d.priority = none → row.priority = "medium") ∧
      (∀ p, d.priority = some p → p ≠ "" → row.priority = p)) := by
  constructor
  · intro h
    rcases h with h | h | h | ⟨t, ht, hlen⟩ | ⟨ds, hds, hlen⟩
    · exact ⟨"Title, description, and category are required",
        by simp [createIssue, h]⟩
    · exact ⟨"Title, description, and category are required",
        by simp [createIssue, h]⟩
    · exact ⟨"Title, description, and category are required",
        by simp [createIssue, h]⟩
    · by_cases h1 : jsFalsy d.title = true
      · exact ⟨"Title, description, and category are required",
          by simp [createIssue, h1]⟩
      · by_cases h2 : jsFalsy d.description = true
        · exact ⟨"Title, description, and category are required",
            by simp [createIssue, h2]⟩
        · by_cases h3 : jsFalsy d.category = true
          · exact ⟨"Title, description, and category are required",
              by simp [createIssue, h3]⟩
          · simp only [Bool.not_eq_true] at h1 h2 h3
            rw [ht] at h1
            rcases hlen with hl | hl
            · exact ⟨"Title must be between 5 and 200 characters",
                by simp [createIssue, h1, h2, h3, ht, hl]⟩
            · exact ⟨"Title must be between 5 and 200 characters",
                by simp [createIssue, h1, h2, h3, ht, hl]⟩
    · by_cases h1 : jsFalsy d.title = true
      · exact ⟨"Title, description, and category are required",
          by simp [createIssue, h1]⟩
      · by_cases h2 : jsFalsy d.description = true
        · exact ⟨"Title, description, and category are required",
            by simp [createIssue, h2]⟩
        · by_cases h3 : jsFalsy d.category = true
          · exact ⟨"Title, description, and category are required",
              by simp [createIssue, h3]⟩
          · simp only [Bool.not_eq_true] at h1 h2 h3
            rw [hds] at h2
            by_cases ht1 : (d.title.getD "").length < 5
            · exact ⟨"Title must be between 5 and 200 characters",
                by simp [createIssue, h1, h2, h3, hds, ht1]⟩
            · by_cases ht2 : (d.title.getD "").length > 200
              · exact ⟨"Title must be between 5 and 200 characters",
                  by simp [createIssue, h1, h2, h3, hds, ht1, ht2]⟩
              · rcases hlen with hl | hl
                · exact ⟨"Description must be between 10 and 2000 characters",
                    by simp [createIssue, h1, h2, h3, ht1, ht2, hds, hl]⟩
                · exact ⟨"Description must be between 10 and 2000 characters",
                    by simp [createIssue, h1, h2, h3, ht1, ht2, hds, hl]⟩
  · intro row hrow
    simp only [createIssue] at hrow
    split at hrow
    · exact absurd hrow (by simp)
    · split at hrow
      · exact absurd hrow (by simp)
      · split at hrow
        · exact absurd hrow (by simp)
        · injection hrow with hr
          subst hr
          refine ⟨rfl, ?_, ?_⟩
          · intro hp
            simp [hp]
          · intro p hp hne
            simp [hp, hne]

/-- C10 witness: a 3-character title is rejected with a validation error,
while a valid payload without a priority is inserted with status pending and
priority medium. -/
theorem createIssue_validates_and_defaults_witness :
    (∃ m, createIssue (some 1)
      { title := some "hey", description := some "0123456789",
        category := some "roads", priority := none }
      = CreateResult.validationError m) ∧
    ({ user_id := 1, title := "hello!", description := "0123456789",
       category := "roads", status := "pending",
       priority := "medium" } : InsertedIssue).status = "pending" :=
  ⟨(createIssue_validates_and_defaults 1
      { title := some "hey", description := some "0123456789",
        category := some "roads", priority := none }).1
      (Or.inr (Or.inr (Or.inr (Or.inl ⟨"hey", rfl, Or.inl (by decide)⟩)))),
   ((createIssue_validates_and_defaults 1
      { title := some "hello!", description := some "0123456789",
        category := some "roads", priority := none }).2
      { user_id := 1, title := "hello!", description := "0123456789",
        category := "roads", status := "pending", priority := "medium" }
      (by decide)).1⟩

end CivicWorkflow
